import Mathlib

/-!
Shallow embedding of the client-side state and data-flow core of the
portfolio single-page application (`src/frontend/src/App.js`): the public
client (`App`) and the admin console (`AdminPanel`).

Network effects are made explicit: each event handler becomes a pure
function from the current component state and the outcome of its network
calls to the new state together with the list of HTTP requests it issued,
the console-error log lines it produced, and the browser alerts it raised.
-/

namespace Portfolio

/-- A portfolio project (fields as consumed in `App.js`). -/
structure Project where
  id : String
  title : String
  description : String
  category : String
  image_url : String
  software_used : List String
  gallery_images : List String
  deriving DecidableEq, Repr

/-- A blog post (fields as consumed in `App.js`). -/
structure BlogPost where
  id : String
  title : String
  excerpt : String
  content : String
  category : String
  image_url : String
  read_time : Nat
  tags : List String
  deriving DecidableEq, Repr

/-- A testimonial (fields as consumed in `App.js`). -/
structure Testimonial where
  id : String
  name : String
  role : String
  company : String
  content : String
  image_url : String
  rating : Nat
  deriving DecidableEq, Repr

/-- The settings singleton (fields as edited by the admin settings form). -/
structure Settings where
  name : String
  title : String
  bio : String
  profile_image : String
  email : String
  phone : String
  location : String
  cv_url : String
  deriving DecidableEq, Repr

/-- The contact form state `contactForm` of the public client. -/
structure ContactForm where
  name : String
  email : String
  message : String
  deriving DecidableEq, Repr

/-- HTTP methods used by the client. -/
inductive Method where
  | get
  | post
  | put
  | delete
  deriving DecidableEq, Repr

/-- An HTTP request issued via `fetch`, identified by method and path
(paths are relative to `BACKEND_URL`). -/
structure Request where
  method : Method
  path : String
  deriving DecidableEq, Repr

/-- Outcome of a single `fetch` call as the code distinguishes them:
`success body` is a resolved response with `response.ok` true, `httpError`
a resolved response with a non-2xx status, `networkError` a rejected
promise (network/transport failure). -/
inductive HttpResult (α : Type) where
  | success (body : α)
  | httpError
  | networkError
  deriving DecidableEq, Repr

/-- The six values `activeSection` ranges over (set from the navigation
list and the section buttons in `App.js`). -/
inductive Section where
  | home
  | about
  | portfolio
  | blog
  | skills
  | contact
  deriving DecidableEq, Repr

/-- The renderable views (section components of `App.js`). -/
inductive View where
  | hero
  | about
  | skills
  | portfolio
  | testimonials
  | blog
  | contact
  deriving DecidableEq, Repr

/-- The public client's root state: the `useState` slots of `App`. -/
structure AppState where
  activeSection : Section
  selectedProject : Option Project
  selectedBlogPost : Option BlogPost
  projects : List Project
  blogPosts : List BlogPost
  testimonials : List Testimonial
  settings : Option Settings
  projectFilter : String
  projectCategories : List String
  contactForm : ContactForm
  isSubmitting : Bool
  showAdmin : Bool
  isMenuOpen : Bool
  deriving DecidableEq, Repr

/-- The initial state of `App`: `useState` initial values. -/
def initState : AppState where
  activeSection := Section.home
  selectedProject := none
  selectedBlogPost := none
  projects := []
  blogPosts := []
  testimonials := []
  settings := none
  projectFilter := "All"
  projectCategories := []
  contactForm := ⟨"", "", ""⟩
  isSubmitting := false
  showAdmin := false
  isMenuOpen := false

/-- Result of an event handler of the public client: the new state, the
requests it issued, the `console.error` lines, and the `alert`s raised. -/
structure AppEffect where
  state : AppState
  requests : List Request
  logs : List String
  alerts : List String
  deriving DecidableEq, Repr

/-- The outcomes of the five reads issued by the public client's
`fetchData` (`none` = that read's promise rejected or its body failed to
parse). -/
structure FetchResults where
  projectsRes : Option (List Project)
  blogRes : Option (List BlogPost)
  testimonialsRes : Option (List Testimonial)
  settingsRes : Option Settings
  categoriesRes : Option (List String)
  deriving DecidableEq, Repr

/-- `Promise.all` over the five reads: all results, or a rejection if any
read failed. -/
def promiseAll (r : FetchResults) :
    Option (List Project × List BlogPost × List Testimonial × Settings × List String) :=
  match r.projectsRes, r.blogRes, r.testimonialsRes, r.settingsRes, r.categoriesRes with
  | some ps, some bs, some ts, some s, some cs => some (ps, bs, ts, s, cs)
  | _, _, _, _, _ => none

/-- At least one of the five reads failed. -/
def FetchResults.anyFailed (r : FetchResults) : Prop :=
  r.projectsRes = none ∨ r.blogRes = none ∨ r.testimonialsRes = none ∨
    r.settingsRes = none ∨ r.categoriesRes = none

/-- The five GET requests `fetchData` issues. -/
def fetchRequests : List Request :=
  [⟨Method.get, "/api/projects"⟩, ⟨Method.get, "/api/blog"⟩,
   ⟨Method.get, "/api/testimonials"⟩, ⟨Method.get, "/api/settings"⟩,
   ⟨Method.get, "/api/projects/categories"⟩]

/-- The public client's `fetchData`: five concurrent reads joined by
`Promise.all`; on success all five state slots are set (categories get the
`'All'` sentinel prepended), on any failure the error is logged and no
state slot changes. -/
def fetchData (st : AppState) (r : FetchResults) : AppEffect :=
  match promiseAll r with
  | some (ps, bs, ts, s, cs) =>
      ⟨{ st with projects := ps, blogPosts := bs, testimonials := ts,
                 settings := some s, projectCategories := "All" :: cs },
       fetchRequests, [], []⟩
  | none => ⟨st, fetchRequests, ["Error fetching data:"], []⟩

/-- The derived `filteredProjects` value (`App.js` lines 52-54). -/
def filteredProjects (projects : List Project) (projectFilter : String) :
    List Project :=
  if projectFilter = "All" then projects
  else projects.filter (fun p => p.category == projectFilter)

/-- `handleContactSubmit`: POST the contact form; on `response.ok` alert
success and clear the form, otherwise log and alert failure leaving the
form untouched; `isSubmitting` is reset in the `finally` block. -/
def handleContactSubmit (st : AppState) (resp : HttpResult Unit) : AppEffect :=
  let req : Request := ⟨Method.post, "/api/contact"⟩
  match resp with
  | HttpResult.success _ =>
      ⟨{ st with contactForm := ⟨"", "", ""⟩, isSubmitting := false },
       [req], [], ["Message sent successfully!"]⟩
  | HttpResult.httpError =>
      ⟨{ st with isSubmitting := false },
       [req], ["Error sending message:"], ["Failed to send message. Please try again."]⟩
  | HttpResult.networkError =>
      ⟨{ st with isSubmitting := false },
       [req], ["Error sending message:"], ["Failed to send message. Please try again."]⟩

/-- `onClick=\x7b() => setSelectedProject(project)\x7d` on a project card. -/
def selectProject (st : AppState) (p : Project) : AppState :=
  { st with selectedProject := some p }

/-- `onClose=\x7b() => setSelectedProject(null)\x7d` of `ProjectModal`. -/
def closeProject (st : AppState) : AppState :=
  { st with selectedProject := none }

/-- `onClick=\x7b() => setSelectedBlogPost(post)\x7d` on a blog card. -/
def selectBlogPost (st : AppState) (b : BlogPost) : AppState :=
  { st with selectedBlogPost := some b }

/-- `onClose=\x7b() => setSelectedBlogPost(null)\x7d` of `BlogModal`. -/
def closeBlogPost (st : AppState) : AppState :=
  { st with selectedBlogPost := none }

/-- `ProjectModal` renders its overlay exactly when `project` is truthy
(`\x7bproject && (...)\x7d`). -/
def ProjectModal (project : Option Project) : Bool :=
  match project with
  | some _ => true
  | none => false

/-- `BlogModal` renders its overlay exactly when `post` is truthy
(`\x7bpost && (...)\x7d`). -/
def BlogModal (post : Option BlogPost) : Bool :=
  match post with
  | some _ => true
  | none => false

/-- `onClick=\x7b() => setActiveSection(section)\x7d`: selecting a section
overwrites `activeSection`. -/
def selectSection (st : AppState) (s : Section) : AppState :=
  { st with activeSection := s }

/-- The `renderSection` switch of `App.js` (the `default` branch returning
the hero section is unreachable for the six section values). -/
def renderSection : Section → View
  | Section.home => View.hero
  | Section.about => View.about
  | Section.portfolio => View.portfolio
  | Section.blog => View.blog
  | Section.skills => View.skills
  | Section.contact => View.contact

/-- The six extra views appended after the hero when `activeSection` is
`'home'` (`App.js` lines 920-929), in source order. -/
def homeConcatViews : List View :=
  [View.about, View.skills, View.portfolio, View.testimonials, View.blog,
   View.contact]

/-- What `main` renders: `renderSection()` followed, exactly when the
active section is `'home'`, by the six concatenated extra views. -/
def renderMain (active : Section) : List View :=
  [renderSection active] ++ (if active = Section.home then homeConcatViews else [])

/-- The admin console's root state: the `useState` slots of `AdminPanel`. -/
structure AdminState where
  activeTab : String
  settings : Option Settings
  projects : List Project
  blogPosts : List BlogPost
  testimonials : List Testimonial
  loading : Bool
  message : String
  deriving DecidableEq, Repr

/-- The initial state of `AdminPanel`: `useState` initial values. -/
def initAdminState : AdminState where
  activeTab := "settings"
  settings := none
  projects := []
  blogPosts := []
  testimonials := []
  loading := false
  message := ""

/-- Result of an admin event handler: the new state, the requests it
issued and the `console.error` lines it produced. -/
structure AdminEffect where
  state : AdminState
  requests : List Request
  logs : List String
  deriving DecidableEq, Repr

/-- The outcomes of the four reads issued by the admin `fetchData`. -/
structure AdminFetchResults where
  settingsRes : Option Settings
  projectsRes : Option (List Project)
  blogRes : Option (List BlogPost)
  testimonialsRes : Option (List Testimonial)
  deriving DecidableEq, Repr

/-- `Promise.all` over the admin console's four reads. -/
def adminPromiseAll (r : AdminFetchResults) :
    Option (Settings × List Project × List BlogPost × List Testimonial) :=
  match r.settingsRes, r.projectsRes, r.blogRes, r.testimonialsRes with
  | some s, some ps, some bs, some ts => some (s, ps, bs, ts)
  | _, _, _, _ => none

/-- The four GET requests the admin `fetchData` issues. -/
def adminFetchRequests : List Request :=
  [⟨Method.get, "/api/settings"⟩, ⟨Method.get, "/api/projects"⟩,
   ⟨Method.get, "/api/blog"⟩, ⟨Method.get, "/api/testimonials"⟩]

/-- The admin console's `fetchData`: four concurrent reads joined by
`Promise.all`; on success all four slots are set, on any failure the
error is logged and `message` is set to `'Error loading data'`; `loading`
ends false via the `finally` block. -/
def adminFetchData (st : AdminState) (r : AdminFetchResults) : AdminEffect :=
  match adminPromiseAll r with
  | some (s, ps, bs, ts) =>
      ⟨{ st with settings := some s, projects := ps, blogPosts := bs,
                 testimonials := ts, loading := false },
       adminFetchRequests, []⟩
  | none =>
      ⟨{ st with message := "Error loading data", loading := false },
       adminFetchRequests, ["Error fetching data:"]⟩

/-- `updateSettings`: PUT the submitted settings; on `response.ok` set
`message` and store the submitted object (the response body is never
read), otherwise log and set an error message; the settings slot is
untouched on failure; `loading` ends false via the `finally` block. -/
def updateSettings (st : AdminState) (updatedSettings : Settings)
    (resp : HttpResult Settings) : AdminEffect :=
  let putReq : Request := ⟨Method.put, "/api/settings"⟩
  match resp with
  | HttpResult.success _body =>
      ⟨{ st with settings := some updatedSettings,
                 message := "Settings updated successfully!", loading := false },
       [putReq], []⟩
  | HttpResult.httpError =>
      ⟨{ st with message := "Error updating settings", loading := false },
       [putReq], ["Error updating settings:"]⟩
  | HttpResult.networkError =>
      ⟨{ st with message := "Error updating settings", loading := false },
       [putReq], ["Error updating settings:"]⟩

/-- `deleteItem`: bail out before any request if the `window.confirm`
prompt is declined; otherwise DELETE `/api/\x7btype\x7d/\x7bid\x7d`; on
`response.ok` set a success message and call `fetchData()` to refresh all
four collections, otherwise log and set an error message with no
refresh. -/
def deleteItem (st : AdminState) (ty id : String) (confirmed : Bool)
    (resp : HttpResult Unit) (refetch : AdminFetchResults) : AdminEffect :=
  if confirmed = false then ⟨st, [], []⟩
  else
    let delReq : Request := ⟨Method.delete, "/api/" ++ ty ++ "/" ++ id⟩
    match resp with
    | HttpResult.success _ =>
        let st1 := { st with message := ty ++ " deleted successfully!" }
        let fe := adminFetchData st1 refetch
        ⟨fe.state, delReq :: fe.requests, fe.logs⟩
    | HttpResult.httpError =>
        ⟨{ st with message := "Error deleting " ++ ty, loading := false },
         [delReq], ["Error deleting " ++ ty ++ ":"]⟩
    | HttpResult.networkError =>
        ⟨{ st with message := "Error deleting " ++ ty, loading := false },
         [delReq], ["Error deleting " ++ ty ++ ":"]⟩

/-- A snapshot of the Content Store's collections, used to model the five
reads resolving against a consistent backend. -/
structure ServerState where
  projects : List Project
  blogPosts : List BlogPost
  testimonials : List Testimonial
  settings : Settings
  deriving DecidableEq, Repr

/-- Modelled from the spec: the Content API's `GET /api/projects/categories`
endpoint (the backend service is not part of the repository sources)
returns the sequence of distinct category strings of the projects
collection. -/
def serverCategories (ps : List Project) : List String :=
  (ps.map Project.category).dedup

/-- The five read results produced when all five reads resolve against the
same server snapshot. -/
def serverFetchResults (sv : ServerState) : FetchResults :=
  ⟨some sv.projects, some sv.blogPosts, some sv.testimonials,
   some sv.settings, some (serverCategories sv.projects)⟩

/-- The events that drive the public client's state. -/
inductive PubEvent where
  | fetchResolved (sv : ServerState)
  | fetchRejected
  | setFilter (f : String)
  | selectProj (p : Project)
  | closeProj
  | selectPost (b : BlogPost)
  | closePost
  | navigate (s : Section)
  | editContact (c : ContactForm)
  | contactDone (r : HttpResult Unit)
  | toggleAdmin
  | toggleMenu
  deriving Repr

/-- One step of the public client: dispatch an event to its handler. -/
def step (st : AppState) : PubEvent → AppState
  | PubEvent.fetchResolved sv => (fetchData st (serverFetchResults sv)).state
  | PubEvent.fetchRejected => (fetchData st ⟨none, none, none, none, none⟩).state
  | PubEvent.setFilter f => { st with projectFilter := f }
  | PubEvent.selectProj p => selectProject st p
  | PubEvent.closeProj => closeProject st
  | PubEvent.selectPost b => selectBlogPost st b
  | PubEvent.closePost => closeBlogPost st
  | PubEvent.navigate s => selectSection st s
  | PubEvent.editContact c => { st with contactForm := c }
  | PubEvent.contactDone r => (handleContactSubmit st r).state
  | PubEvent.toggleAdmin => { st with showAdmin := !st.showAdmin }
  | PubEvent.toggleMenu => { st with isMenuOpen := !st.isMenuOpen }

/-- Run the public client from a state through a list of events. -/
def run (st : AppState) (evs : List PubEvent) : AppState :=
  evs.foldl step st

/-- The claimed invariant: the category filter option set equals
`\x7b"All"\x7d ∪` the distinct `Project.category` values of the current
project collection (as sets of strings). -/
def CategoryInvariant (st : AppState) : Prop :=
  ∀ c : String,
    c ∈ st.projectCategories ↔ (c = "All" ∨ ∃ p ∈ st.projects, p.category = c)

/- Sample data for witnesses and counterexamples. -/

/-- A sample residential project. -/
def sampleProject : Project :=
  ⟨"p1", "Modern Villa", "A modern villa exterior", "Residential",
   "villa.jpg", ["3ds Max", "V-Ray"], []⟩

/-- A sample commercial project. -/
def sampleProject2 : Project :=
  ⟨"p2", "Office Tower", "A commercial tower", "Commercial",
   "tower.jpg", ["Revit"], []⟩

/-- A sample settings value. -/
def sampleSettings : Settings :=
  ⟨"Rabiul Hasan", "Architectural Visualizer", "bio text", "me.jpg",
   "a@b.com", "+880", "Dhaka", "cv.pdf"⟩

/-- A second, different sample settings value. -/
def sampleSettings2 : Settings :=
  ⟨"Someone Else", "Designer", "other bio", "other.jpg",
   "c@d.com", "+440", "London", "cv2.pdf"⟩

/-- A sample blog post. -/
def sampleBlogPost : BlogPost :=
  ⟨"b1", "Lighting Basics", "excerpt", "content", "Tutorial",
   "post.jpg", 5, ["lighting"]⟩

/-- A sample testimonial. -/
def sampleTestimonial : Testimonial :=
  ⟨"t1", "Client A", "CEO", "Acme", "Great work", "client.jpg", 5⟩

/-- A sample server snapshot. -/
def sampleServer : ServerState :=
  ⟨[sampleProject, sampleProject2], [sampleBlogPost], [sampleTestimonial],
   sampleSettings⟩

/-! ## Theorems -/

/-- C1: for every project collection `P` and filter string `f`, the filter
projector returns `P` itself when `f = "All"`, and otherwise exactly the
projects in `P` whose category equals `f`; in all cases the result is a
subset of `P` (purity is inherent: `filteredProjects` is a function of
`(P, f)` alone). -/
theorem C1_filter_projector (P : List Project) (f : String) :
    (∀ p, p ∈ filteredProjects P f → p ∈ P) ∧
    (f = "All" → filteredProjects P f = P) ∧
    (f ≠ "All" → ∀ p, p ∈ filteredProjects P f ↔ p ∈ P ∧ p.category = f) := by
  refine ⟨?_, ?_, ?_⟩
  · intro p hp
    by_cases h : f = "All"
    · simpa [filteredProjects, h] using hp
    · simp only [filteredProjects, if_neg h, List.mem_filter] at hp
      exact hp.1
  · intro h
    simp [filteredProjects, h]
  · intro h p
    simp [filteredProjects, if_neg h, List.mem_filter]

/-- Witness for C1 at a concrete collection and the filters `"All"` and
`"Residential"`. -/
theorem C1_filter_projector_witness :
    filteredProjects [sampleProject, sampleProject2] "All"
        = [sampleProject, sampleProject2] ∧
    (sampleProject ∈ filteredProjects [sampleProject, sampleProject2] "Residential"
        ↔ sampleProject ∈ [sampleProject, sampleProject2] ∧
            sampleProject.category = "Residential") :=
  ⟨(C1_filter_projector [sampleProject, sampleProject2] "All").2.1 rfl,
   (C1_filter_projector [sampleProject, sampleProject2] "Residential").2.2
     (by decide) sampleProject⟩

/-- C2: the public client's initial load updates local state
all-or-nothing: when all five reads resolve successfully all five slots
are populated together, and when any read fails no slot changes and the
failure is logged; the five requests are issued exactly once with no
retry. -/
theorem C2_fetch_all_or_nothing (st : AppState) (r : FetchResults) :
    (∀ ps bs ts s cs,
        r.projectsRes = some ps → r.blogRes = some bs →
        r.testimonialsRes = some ts → r.settingsRes = some s →
        r.categoriesRes = some cs →
        (fetchData st r).state =
          { st with projects := ps, blogPosts := bs, testimonials := ts,
                    settings := some s, projectCategories := "All" :: cs } ∧
        (fetchData st r).logs = []) ∧
    (r.anyFailed →
        (fetchData st r).state = st ∧
        (fetchData st r).logs = ["Error fetching data:"]) ∧
    (fetchData st r).requests = fetchRequests := by
  obtain ⟨a, b, c, d, e⟩ := r
  refine ⟨?_, ?_, ?_⟩
  · intro ps bs ts s cs h1 h2 h3 h4 h5
    subst h1; subst h2; subst h3; subst h4; subst h5
    exact ⟨rfl, rfl⟩
  · intro h
    cases a <;> cases b <;> cases c <;> cases d <;> cases e <;>
      simp_all [fetchData, promiseAll, FetchResults.anyFailed]
  · cases a <;> cases b <;> cases c <;> cases d <;> cases e <;> rfl

/-- Witness for C2: a fully successful load populates all five slots, and
a load whose projects read failed leaves the state untouched. -/
theorem C2_fetch_all_or_nothing_witness :
    (fetchData initState (serverFetchResults sampleServer)).state
      = { initState with
            projects := [sampleProject, sampleProject2],
            blogPosts := [sampleBlogPost],
            testimonials := [sampleTestimonial],
            settings := some sampleSettings,
            projectCategories :=
              "All" :: serverCategories [sampleProject, sampleProject2] } ∧
    (fetchData initState
        ⟨none, some [], some [], some sampleSettings, some []⟩).state
      = initState :=
  ⟨((C2_fetch_all_or_nothing initState (serverFetchResults sampleServer)).1
      [sampleProject, sampleProject2] [sampleBlogPost] [sampleTestimonial]
      sampleSettings (serverCategories [sampleProject, sampleProject2])
      rfl rfl rfl rfl rfl).1,
   ((C2_fetch_all_or_nothing initState
        ⟨none, some [], some [], some sampleSettings, some []⟩).2.1
      (Or.inl rfl)).1⟩

/-- Transferring the category-option property along a step that changes
neither the project collection nor the category options. -/
theorem catInv_frame {st st' : AppState}
    (hp : st'.projects = st.projects)
    (hc : st'.projectCategories = st.projectCategories) :
    (CategoryInvariant st ∨ (st.projects = [] ∧ st.projectCategories = [])) →
    (CategoryInvariant st' ∨ (st'.projects = [] ∧ st'.projectCategories = [])) := by
  intro h
  cases h with
  | inl h => exact Or.inl (by intro c; rw [hp, hc]; exact h c)
  | inr h => exact Or.inr ⟨hp ▸ h.1, hc ▸ h.2⟩

/-- C3 counterexample: at the initial point of execution the category
option set is empty, not `\x7b"All"\x7d ∪` the distinct categories of the
(empty) project collection, so the claimed invariant fails there. -/
theorem C3_counterexample :
    initState.projectCategories = [] ∧ ¬ CategoryInvariant initState := by
  refine ⟨rfl, ?_⟩
  intro h
  have hmem := (h "All").mpr (Or.inl rfl)
  simp [initState] at hmem

/-- C3 (amended): at every reachable point of the public client's
execution, either the category option set equals `\x7b"All"\x7d ∪` the
distinct `Project.category` values of the current project collection (as
sets), or no fetch has succeeded yet and both the project collection and
the option set are still empty; every successful fetch recomputes the
options together with the collection. -/
theorem C3_category_options (evs : List PubEvent) :
    CategoryInvariant (run initState evs) ∨
      ((run initState evs).projects = [] ∧
        (run initState evs).projectCategories = []) := by
  induction evs using List.reverseRecOn with
  | nil => exact Or.inr ⟨rfl, rfl⟩
  | append_singleton evs e ih =>
      have hrun : run initState (evs ++ [e]) = step (run initState evs) e := by
        simp [run, List.foldl_append]
      rw [hrun]
      cases e with
      | fetchResolved sv =>
          left
          intro c
          simp [step, fetchData, promiseAll, serverFetchResults,
                serverCategories, List.mem_dedup, List.mem_map]
      | fetchRejected => exact catInv_frame rfl rfl ih
      | setFilter f => exact catInv_frame rfl rfl ih
      | selectProj p => exact catInv_frame rfl rfl ih
      | closeProj => exact catInv_frame rfl rfl ih
      | selectPost b => exact catInv_frame rfl rfl ih
      | closePost => exact catInv_frame rfl rfl ih
      | navigate s => exact catInv_frame rfl rfl ih
      | editContact c => exact catInv_frame rfl rfl ih
      | contactDone r => cases r <;> exact catInv_frame rfl rfl ih
      | toggleAdmin => exact catInv_frame rfl rfl ih
      | toggleMenu => exact catInv_frame rfl rfl ih

/-- C4: the selected-project and selected-blog-post slots are mutually
independent (each select/close touches only its own slot), at most one of
each is selected at a time, both may be selected simultaneously, and each
overlay renders exactly when its slot is not `none`. -/
theorem C4_modal_independence (st : AppState) (p : Project) (b : BlogPost) :
    (selectProject st p).selectedProject = some p ∧
    (selectProject st p).selectedBlogPost = st.selectedBlogPost ∧
    (selectBlogPost st b).selectedBlogPost = some b ∧
    (selectBlogPost st b).selectedProject = st.selectedProject ∧
    (closeProject st).selectedProject = none ∧
    (closeProject st).selectedBlogPost = st.selectedBlogPost ∧
    (closeBlogPost st).selectedBlogPost = none ∧
    (closeBlogPost st).selectedProject = st.selectedProject ∧
    (selectBlogPost (selectProject st p) b).selectedProject = some p ∧
    (selectBlogPost (selectProject st p) b).selectedBlogPost = some b ∧
    st.selectedProject.toList.length ≤ 1 ∧
    st.selectedBlogPost.toList.length ≤ 1 ∧
    (ProjectModal st.selectedProject = true ↔ st.selectedProject ≠ none) ∧
    (BlogModal st.selectedBlogPost = true ↔ st.selectedBlogPost ≠ none) := by
  refine ⟨rfl, rfl, rfl, rfl, rfl, rfl, rfl, rfl, rfl, rfl, ?_, ?_, ?_, ?_⟩
  · cases st.selectedProject <;> simp
  · cases st.selectedBlogPost <;> simp
  · cases st.selectedProject <;> simp [ProjectModal]
  · cases st.selectedBlogPost <;> simp [BlogModal]

/-- C5: the rendered output is a function of the single active-section
state: for `home` it is the hero view followed by the about, skills,
portfolio, testimonials, blog and contact views in that fixed order; for
each of the other five sections it is exactly that section's view; the
initial state is `home`; selecting a section is an idempotent overwrite
of the current state. -/
theorem C5_view_router (st : AppState) (s s2 : Section) :
    renderMain Section.home
        = [View.hero, View.about, View.skills, View.portfolio,
           View.testimonials, View.blog, View.contact] ∧
    renderMain Section.about = [View.about] ∧
    renderMain Section.portfolio = [View.portfolio] ∧
    renderMain Section.blog = [View.blog] ∧
    renderMain Section.skills = [View.skills] ∧
    renderMain Section.contact = [View.contact] ∧
    initState.activeSection = Section.home ∧
    (selectSection st s).activeSection = s ∧
    selectSection (selectSection st s2) s = selectSection st s := by
  refine ⟨rfl, ?_, ?_, ?_, ?_, ?_, rfl, rfl, rfl⟩ <;> rfl

/-- C6: when the settings PUT returns a non-2xx response, the admin
console's local settings state is unchanged, an error message is shown,
and that message is a non-empty string. -/
theorem C6_settings_put_failure (st : AdminState) (upd : Settings) :
    (updateSettings st upd HttpResult.httpError).state.settings = st.settings ∧
    (updateSettings st upd HttpResult.httpError).state.message
        = "Error updating settings" ∧
    (updateSettings st upd HttpResult.httpError).state.message ≠ "" := by
  refine ⟨rfl, rfl, ?_⟩
  show "Error updating settings" ≠ ""
  decide

/-- The admin `fetchData` issues its four GET requests regardless of the
outcome of the reads. -/
theorem adminFetchData_requests (st : AdminState) (r : AdminFetchResults) :
    (adminFetchData st r).requests = adminFetchRequests := by
  obtain ⟨a, b, c, d⟩ := r
  cases a <;> cases b <;> cases c <;> cases d <;> rfl

/-- C7 counterexample: a confirmed `delete_item('projects','p1')` whose
DELETE returns non-2xx issues only the DELETE — none of the four GET
re-fetches — and shows an error, not a success message, so the re-fetch
is not unconditional. -/
theorem C7_counterexample :
    (deleteItem initAdminState "projects" "p1" true HttpResult.httpError
        ⟨some sampleSettings, some [], some [], some []⟩).requests
      = [⟨Method.delete, "/api/projects/p1"⟩] ∧
    (deleteItem initAdminState "projects" "p1" true HttpResult.httpError
        ⟨some sampleSettings, some [], some [], some []⟩).state.message
      = "Error deleting projects" := by
  exact ⟨rfl, rfl⟩

/-- C7 (amended): a declined confirmation issues no request and changes no
state; a confirmed delete whose DELETE succeeds issues
`DELETE /api/\x7bkind\x7d/\x7bid\x7d` followed by the GETs for all four
collections (not just the affected one) and shows a success message,
updating the collections from the re-fetch; a confirmed delete whose
DELETE fails issues only the DELETE, leaves the four collections
unchanged and shows an error message. -/
theorem C7_delete_item (st : AdminState) (ty id : String)
    (resp : HttpResult Unit) (refetch : AdminFetchResults) :
    (deleteItem st ty id false resp refetch).state = st ∧
    (deleteItem st ty id false resp refetch).requests = [] ∧
    ((deleteItem st ty id true (HttpResult.success ()) refetch).requests
        = ⟨Method.delete, "/api/" ++ ty ++ "/" ++ id⟩ :: adminFetchRequests) ∧
    (∀ s ps bs ts, adminPromiseAll refetch = some (s, ps, bs, ts) →
        (deleteItem st ty id true (HttpResult.success ()) refetch).state.message
          = ty ++ " deleted successfully!" ∧
        (deleteItem st ty id true (HttpResult.success ()) refetch).state.settings
          = some s ∧
        (deleteItem st ty id true (HttpResult.success ()) refetch).state.projects
          = ps ∧
        (deleteItem st ty id true (HttpResult.success ()) refetch).state.blogPosts
          = bs ∧
        (deleteItem st ty id true (HttpResult.success ()) refetch).state.testimonials
          = ts) ∧
    ((deleteItem st ty id true HttpResult.httpError refetch).requests
        = [⟨Method.delete, "/api/" ++ ty ++ "/" ++ id⟩] ∧
     (deleteItem st ty id true HttpResult.httpError refetch).state.message
        = "Error deleting " ++ ty ∧
     (deleteItem st ty id true HttpResult.httpError refetch).state.settings
        = st.settings ∧
     (deleteItem st ty id true HttpResult.httpError refetch).state.projects
        = st.projects ∧
     (deleteItem st ty id true HttpResult.httpError refetch).state.blogPosts
        = st.blogPosts ∧
     (deleteItem st ty id true HttpResult.httpError refetch).state.testimonials
        = st.testimonials) := by
  refine ⟨rfl, rfl, ?_, ?_, ⟨rfl, rfl, rfl, rfl, rfl, rfl⟩⟩
  · simp [deleteItem, adminFetchData_requests]
  · intro s ps bs ts h
    simp [deleteItem, adminFetchData, h]

/-- Witness for C7: a confirmed, successful delete with a successful
re-fetch ends with the success message and the freshly fetched
collections. -/
theorem C7_delete_item_witness :
    (deleteItem initAdminState "projects" "p1" true (HttpResult.success ())
        ⟨some sampleSettings, some [sampleProject2], some [], some []⟩).state.message
      = "projects deleted successfully!" ∧
    (deleteItem initAdminState "projects" "p1" true (HttpResult.success ())
        ⟨some sampleSettings, some [sampleProject2], some [], some []⟩).state.projects
      = [sampleProject2] :=
  ⟨((C7_delete_item initAdminState "projects" "p1" (HttpResult.success ())
      ⟨some sampleSettings, some [sampleProject2], some [], some []⟩).2.2.2.1
      sampleSettings [sampleProject2] [] [] rfl).1,
   ((C7_delete_item initAdminState "projects" "p1" (HttpResult.success ())
      ⟨some sampleSettings, some [sampleProject2], some [], some []⟩).2.2.2.1
      sampleSettings [sampleProject2] [] [] rfl).2.2.1⟩

/-- C8: a contact submission whose POST returns 2xx resets the three form
fields to empty strings, shows a confirmation alert, and resets
`isSubmitting` to false; a failed submission (non-2xx or network failure)
leaves the form fields unchanged, still resets `isSubmitting`, and raises
an alert, so fields are cleared only on confirmed success. -/
theorem C8_contact_submit (st : AppState) :
    ((handleContactSubmit st (HttpResult.success ())).state.contactForm
        = ⟨"", "", ""⟩ ∧
     (handleContactSubmit st (HttpResult.success ())).alerts
        = ["Message sent successfully!"] ∧
     (handleContactSubmit st (HttpResult.success ())).state.isSubmitting = false) ∧
    ((handleContactSubmit st HttpResult.httpError).state.contactForm
        = st.contactForm ∧
     (handleContactSubmit st HttpResult.httpError).state.isSubmitting = false ∧
     (handleContactSubmit st HttpResult.httpError).alerts ≠ []) ∧
    ((handleContactSubmit st HttpResult.networkError).state.contactForm
        = st.contactForm ∧
     (handleContactSubmit st HttpResult.networkError).state.isSubmitting = false ∧
     (handleContactSubmit st HttpResult.networkError).alerts ≠ []) := by
  refine ⟨⟨rfl, rfl, rfl⟩, ⟨rfl, rfl, ?_⟩, ⟨rfl, rfl, ?_⟩⟩ <;> simp [handleContactSubmit]

/-- C9 counterexample: the public client's initial-load fetch failure is
caught and logged but not surfaced to the end user — no alert is raised,
and the state (which holds no message slot at all) is exactly the prior
state — refuting "every API failure is surfaced as an alert or
message". -/
theorem C9_counterexample :
    (fetchData initState ⟨none, none, none, none, none⟩).logs
      = ["Error fetching data:"] ∧
    (fetchData initState ⟨none, none, none, none, none⟩).alerts = [] ∧
    (fetchData initState ⟨none, none, none, none, none⟩).state = initState :=
  ⟨rfl, rfl, rfl⟩

/-- C9 (amended): every API failure is caught locally and logged, and
every failure path leaves the data state in its prior state rather than
crashing; contact-form and admin-console failures are additionally
surfaced as an alert or transient message, but the public client's
initial-load fetch failure is logged only and not surfaced to the user. -/
theorem C9_failures_caught (st : AppState) (ast : AdminState) (upd : Settings)
    (ty id : String) (r : FetchResults) (ar : AdminFetchResults) :
    (promiseAll r = none →
        (fetchData st r).state = st ∧
        (fetchData st r).logs ≠ [] ∧
        (fetchData st r).alerts = []) ∧
    ((handleContactSubmit st HttpResult.httpError).state
        = { st with isSubmitting := false } ∧
     (handleContactSubmit st HttpResult.httpError).logs ≠ [] ∧
     (handleContactSubmit st HttpResult.httpError).alerts ≠ []) ∧
    ((handleContactSubmit st HttpResult.networkError).state
        = { st with isSubmitting := false } ∧
     (handleContactSubmit st HttpResult.networkError).logs ≠ [] ∧
     (handleContactSubmit st HttpResult.networkError).alerts ≠ []) ∧
    (adminPromiseAll ar = none →
        (adminFetchData ast ar).state
          = { ast with message := "Error loading data", loading := false } ∧
        (adminFetchData ast ar).logs ≠ []) ∧
    ((updateSettings ast upd HttpResult.httpError).state
        = { ast with message := "Error updating settings", loading := false } ∧
     (updateSettings ast upd HttpResult.httpError).logs ≠ []) ∧
    ((updateSettings ast upd HttpResult.networkError).state
        = { ast with message := "Error updating settings", loading := false } ∧
     (updateSettings ast upd HttpResult.networkError).logs ≠ []) ∧
    ((deleteItem ast ty id true HttpResult.httpError ar).state
        = { ast with message := "Error deleting " ++ ty, loading := false } ∧
     (deleteItem ast ty id true HttpResult.httpError ar).logs ≠ []) ∧
    ((deleteItem ast ty id true HttpResult.networkError ar).state
        = { ast with message := "Error deleting " ++ ty, loading := false } ∧
     (deleteItem ast ty id true HttpResult.networkError ar).logs ≠ []) := by
  refine ⟨?_, ⟨rfl, ?_, ?_⟩, ⟨rfl, ?_, ?_⟩, ?_, ⟨rfl, ?_⟩, ⟨rfl, ?_⟩,
          ⟨rfl, ?_⟩, ⟨rfl, ?_⟩⟩
  · intro h
    refine ⟨?_, ?_, ?_⟩ <;> simp [fetchData, h]
  · simp [handleContactSubmit]
  · simp [handleContactSubmit]
  · simp [handleContactSubmit]
  · simp [handleContactSubmit]
  · intro h
    refine ⟨?_, ?_⟩ <;> simp [adminFetchData, h]
  · simp [updateSettings]
  · simp [updateSettings]
  · simp [deleteItem]
  · simp [deleteItem]

/-- Witness for C9: both fetch-failure hypotheses discharged at concrete
all-failed read outcomes. -/
theorem C9_failures_caught_witness :
    (fetchData initState ⟨none, none, none, none, none⟩).state = initState ∧
    (adminFetchData initAdminState ⟨none, none, none, none⟩).state
      = { initAdminState with message := "Error loading data",
                              loading := false } :=
  ⟨((C9_failures_caught initState initAdminState sampleSettings "projects" "p1"
      ⟨none, none, none, none, none⟩ ⟨none, none, none, none⟩).1 rfl).1,
   ((C9_failures_caught initState initAdminState sampleSettings "projects" "p1"
      ⟨none, none, none, none, none⟩ ⟨none, none, none, none⟩).2.2.2.1 rfl).1⟩

/-- C10: on every successful settings PUT the admin console stores the
submitted object, not the response body: for any body the server answers
with, the local settings become the submitted settings, and whenever the
body differs from the submission the local settings differ from the
body. -/
theorem C10_settings_mirror_request (st : AdminState) (upd body : Settings) :
    (updateSettings st upd (HttpResult.success body)).state.settings = some upd ∧
    (body ≠ upd →
      (updateSettings st upd (HttpResult.success body)).state.settings
        ≠ some body) := by
  refine ⟨rfl, ?_⟩
  intro hne h
  exact hne (Option.some_injective _ h).symm

/-- Witness for C10: the server answers with a different settings value
and the local state still mirrors the submission. -/
theorem C10_settings_mirror_request_witness :
    (updateSettings initAdminState sampleSettings
        (HttpResult.success sampleSettings2)).state.settings
      = some sampleSettings ∧
    (updateSettings initAdminState sampleSettings
        (HttpResult.success sampleSettings2)).state.settings
      ≠ some sampleSettings2 :=
  ⟨(C10_settings_mirror_request initAdminState sampleSettings sampleSettings2).1,
   (C10_settings_mirror_request initAdminState sampleSettings sampleSettings2).2
     (by decide)⟩

end Portfolio
